import Mathlib

/-!
# Cold Case Detective — transport layer, verified model

Shallow embedding of the Express backend (`backend/index.js`) and the
Next.js frontend page (`frontend/app/page.js`) of the Cold Case Detective
repository.  The Python RAG service is external to these files; its
responses enter the model as explicit parameters (the possible outcomes of
a `fetch` call), exactly as the JS handlers receive them.

Conventions of the embedding:
* JS strings are modelled as Lean `String`; JS `substring(0, n)` is
  `jsSubstringTo` below (a prefix of the character sequence).
* A JS value that may be absent (`undefined`) is an `Option`; JS
  truthiness of a string value (`!question`) is `≠ none ∧ ≠ ""`.
* A `fetch` call either throws (network/transport error) or yields a
  response with an `ok` flag, a status and a parsed JSON body; the three
  outcomes are the constructors of the `Fetch*` types below.
* `Date` fields (`timestamp`, `createdAt`, `updatedAt`) are omitted: no
  claim mentions them and they carry no logic.
* The MongoDB session store is a connected flag plus a list of sessions;
  `Session.findById` is a lookup by id, `session.save()` either commits
  the updated document or throws (the `saveOk` flag).
-/

namespace ColdCase

/-- A cited source as it appears in query responses and stored messages:
`{ filename, content }` (messageSchema's `sources` entries). -/
structure Source where
  filename : String
  content : String
deriving Repr, DecidableEq

/-- The body of a successful RAG query response: `{ answer, sources }`. -/
structure QueryData where
  answer : String
  sources : List Source
deriving Repr, DecidableEq

/-- A stored conversation message (messageSchema): role is constrained by
the schema enum `['user', 'detective']`; `sources` is the cited-source
list (empty when not supplied, as for user turns). -/
structure Message where
  role : String
  content : String
  sources : List Source
deriving Repr, DecidableEq

/-- A stored chat session (sessionSchema): default title is
`'New Investigation'`, messages start empty. -/
structure Session where
  id : String
  title : String
  messages : List Message
deriving Repr, DecidableEq

/-- The session store: MongoDB connection state plus the stored sessions
(`isMongoConnected()` and the `Session` collection). -/
structure Store where
  connected : Bool
  sessions : List Session
deriving Repr, DecidableEq

/-- Body of the `POST /api/query` request: `{ question, sessionId }`,
either field possibly absent. -/
structure QueryRequest where
  question : Option String
  sessionId : Option String
deriving Repr, DecidableEq

/-- Outcome of the backend's `fetch` to the Python RAG service for a
query: a thrown transport error, a non-ok response carrying a status and
an error body (arbitrary JSON, kept abstract as a string), or an ok
response whose body parses as `{ answer, sources }`. -/
inductive FetchQuery where
  | exn (msg : String)
  | err (status : Nat) (body : String)
  | ok (data : QueryData)
deriving Repr, DecidableEq

/-- The JSON body the backend sends back with `res.json(...)`. -/
inductive RespBody where
  /-- the RAG response `{answer, sources}` passed through unchanged -/
  | queryData (d : QueryData)
  /-- a downstream JSON body passed through unchanged (error bodies,
  upload results), kept abstract -/
  | json (s : String)
  /-- an error object built by the backend itself:
  `{ error, details? }` -/
  | errorObj (error : String) (details : Option String)
deriving Repr, DecidableEq

/-- An HTTP response from the backend: status code and JSON body
(`res.status(...).json(...)`; plain `res.json(...)` is status 200). -/
structure HttpResponse where
  status : Nat
  body : RespBody
deriving Repr, DecidableEq

/-- JS `s.substring(0, n)`: the first `n` characters of `s` (all of `s`
when it is shorter). -/
def jsSubstringTo (s : String) (n : Nat) : String :=
  String.mk (s.data.take n)

/-- JS truthiness of an optional string (`if (!question)`,
`if (sessionId ...)`: absent and empty are falsy). -/
def truthy : Option String → Bool
  | none => false
  | some s => s ≠ ""

/-- The session mutation inside `POST /api/query` once a session was
found: push the user turn and the detective turn, then update the title
from the first question if it is still the default
(`backend/index.js` lines 129-140). -/
def updateSession (question : String) (data : QueryData) (s : Session) :
    Session :=
  let msgs := s.messages ++
    [⟨"user", question, []⟩, ⟨"detective", data.answer, data.sources⟩]
  let title :=
    if s.title = "New Investigation" ∧ msgs.length = 2 then
      jsSubstringTo question 50 ++ (if question.length > 50 then "..." else "")
    else s.title
  { s with messages := msgs, title := title }

/-- The save-to-session block of `POST /api/query` (lines 125-145): runs
only when `sessionId` is truthy and MongoDB is connected; looks the
session up by id; a missing session or a thrown save leaves the store as
it was (the inner `try/catch` swallows the error). -/
def saveToSession (sessionId : Option String) (question : String)
    (data : QueryData) (store : Store) (saveOk : Bool) : Store :=
  if truthy sessionId ∧ store.connected then
    match store.sessions.find? (fun s => s.id = sessionId.getD "") with
    | none => store
    | some _ =>
      if saveOk then
        { store with
          sessions := store.sessions.map (fun s =>
            if s.id = sessionId.getD "" then updateSession question data s
            else s) }
      else store
  else store

/-- The `POST /api/query` handler (lines 102-152): validates the
question, forwards it to the RAG service, passes non-ok statuses and
error bodies through, saves the turn pair to the named session when
possible, and returns the RAG body unchanged on success.  Transport
exceptions become `500 { error: 'Failed to query detective', details }`.
Returns the HTTP response together with the store after the request. -/
def postQuery (req : QueryRequest) (fetched : FetchQuery) (store : Store)
    (saveOk : Bool) : HttpResponse × Store :=
  if truthy req.question then
    let question := req.question.getD ""
    match fetched with
    | .exn msg =>
      (⟨500, .errorObj "Failed to query detective" (some msg)⟩, store)
    | .err status body => (⟨status, .json body⟩, store)
    | .ok data =>
      let store' := saveToSession req.sessionId question data store saveOk
      (⟨200, .queryData data⟩, store')
  else
    (⟨400, .errorObj "Question is required" none⟩, store)

/-- How many requests the `POST /api/query` handler issues to the RAG
service: the single `fetch` at line 111 is reached exactly when the
question guard passes, and nothing in the handler loops or retries. -/
def postQueryDownstreamCalls (req : QueryRequest) : Nat :=
  if truthy req.question then 1 else 0

/-- Outcome of the backend's `fetch` to the RAG service for an upload:
a thrown transport error (which also covers the temp-file reads around
the fetch), a non-ok response with status and error body, or an ok
response whose JSON body is kept abstract. -/
inductive FetchUpload where
  | exn (msg : String)
  | err (status : Nat) (body : String)
  | ok (body : String)
deriving Repr, DecidableEq

/-- The `POST /api/upload` handler (lines 222-257): 400 when multer
produced no file, otherwise the file is forwarded to the RAG service;
non-ok statuses and error bodies are passed through, ok bodies returned
unchanged, and any thrown error becomes
`500 { error: 'Failed to upload file', details }`.  The handler performs
no extension check of its own.  `file` is the uploaded file's original
name (`req.file.originalname`), absent when no file was sent. -/
def postUpload (file : Option String) (fetched : FetchUpload) :
    HttpResponse :=
  match file with
  | none => ⟨400, .errorObj "No file uploaded" none⟩
  | some _ =>
    match fetched with
    | .exn msg => ⟨500, .errorObj "Failed to upload file" (some msg)⟩
    | .err status body => ⟨status, .json body⟩
    | .ok body => ⟨200, .json body⟩

/-! ## Frontend (`frontend/app/page.js`) -/

/-- JS `split('.')` on a character list: splits at every dot and keeps
empty pieces, so `''` yields `['']` and `'foo.'` yields `['foo', '']`. -/
def splitDotAux : List Char → List Char → List (List Char)
  | [], acc => [acc.reverse]
  | c :: cs, acc =>
    if c = '.' then acc.reverse :: splitDotAux cs []
    else splitDotAux cs (c :: acc)

/-- JS `name.split('.')`. -/
def jsSplitDot (s : String) : List String :=
  (splitDotAux s.data []).map String.mk

/-- The filename-extension computation of `handleFileUpload`
(line 120): `file.name.split('.').pop().toLowerCase()` (`toLowerCase`
maps each character to lower case).  JS `split('.')` on a dot-free name
returns the whole name as its only element, so the "extension" of
`README` is `readme`. -/
def fileExt (name : String) : String :=
  String.mk (((jsSplitDot name).getLastD "").data.map Char.toLower)

/-- The `type` of a frontend upload-status banner. -/
inductive StatusType where
  | success
  | error
deriving Repr, DecidableEq

/-- `uploadStatus` as set by `handleFileUpload`:
`{ type: 'success' | 'error', message }`. -/
structure UploadStatus where
  type : StatusType
  message : String
deriving Repr, DecidableEq

/-- What a run of `handleFileUpload` did: whether the `fetch` to
`/api/upload` was issued, and the resulting `uploadStatus` banner. -/
structure FrontUploadResult where
  requestSent : Bool
  uploadStatus : Option UploadStatus
deriving Repr, DecidableEq

/-- Outcome of the frontend's `fetch` as `handleFileUpload` sees it: a
thrown error with JS `error.message` (empty models an absent message), a
non-ok response whose parsed error body may carry a `detail` field, or an
ok response. -/
inductive FrontFetchUpload where
  | exn (message : String)
  | err (detail : Option String)
  | ok
deriving Repr, DecidableEq

/-- The frontend `handleFileUpload` (lines 117-151): returns at once when
no file was chosen; rejects any filename whose extension (lower-cased) is
not `txt` or `pdf` with the unsupported-file-type banner and WITHOUT
issuing the upload request; otherwise posts the file and reports
`'"<name>" added to evidence'` on success, or the server's `detail`
(falling back to `'Upload failed'`) on failure.  JS `error.detail ||
'Upload failed'` and `error.message || 'Upload failed'` treat an absent
or empty string as falsy. -/
def handleFileUpload (file : Option String) (fetched : FrontFetchUpload) :
    FrontUploadResult :=
  match file with
  | none => ⟨false, none⟩
  | some name =>
    if fileExt name = "txt" ∨ fileExt name = "pdf" then
      match fetched with
      | .exn message =>
        ⟨true, some ⟨.error, if message = "" then "Upload failed" else message⟩⟩
      | .err detail =>
        ⟨true, some ⟨.error,
          match detail with
          | none => "Upload failed"
          | some d => if d = "" then "Upload failed" else d⟩⟩
      | .ok => ⟨true, some ⟨.success, "\"" ++ name ++ "\" added to evidence"⟩⟩
    else
      ⟨false, some ⟨.error, "Only .txt and .pdf files are supported"⟩⟩

/-- Modelled from the spec: the ingestion service (the Python RAG
service's upload endpoint, not under `src/`) creates a Document record
only when an upload request reaches it and it accepts the file; with no
request it creates nothing ("`UnsupportedFileType` ... no Document
record created"). -/
def documentsAfterUpload (docs : List String) (requestSent : Bool)
    (name : String) (accepted : Bool) : List String :=
  if requestSent ∧ accepted then docs ++ [name] else docs

/-- A message of the frontend chat transcript (the `messages` state):
`sources` is present only on grounded detective answers, `error` marks
the failure banner (absent, i.e. `false`, elsewhere). -/
structure ChatMsg where
  role : String
  content : String
  sources : Option (List Source)
  error : Bool
deriving Repr, DecidableEq

/-- Outcome of the frontend's query `fetch`: thrown, non-ok (the body is
never read — both handlers throw on `!res.ok` before parsing), or ok
with the parsed `{answer, sources}`. -/
inductive FrontFetchQuery where
  | exn
  | err
  | ok (data : QueryData)
deriving Repr, DecidableEq

/-- The fixed failure message of `handleSubmit` (line 105). -/
def submitFailureText : String :=
  "I seem to be having trouble accessing the case files. Make sure the Python API is running."

/-- The fixed failure message of `handleTipClick` (line 228). -/
def tipFailureText : String :=
  "I seem to be having trouble accessing the case files."

/-- The detective-side message `handleSubmit` appends (lines 90-107):
the answer with its sources when the request succeeded, otherwise the
fixed failure banner with `error: true` and no sources. -/
def submitDetectiveMsg (fetched : FrontFetchQuery) : ChatMsg :=
  match fetched with
  | .ok data => ⟨"detective", data.answer, some data.sources, false⟩
  | .exn => ⟨"detective", submitFailureText, none, true⟩
  | .err => ⟨"detective", submitFailureText, none, true⟩

/-- The `handleSubmit` transcript update (lines 72-111) for a non-empty
trimmed question: the user turn, then the detective turn from
`submitDetectiveMsg`. -/
def handleSubmit (prev : List ChatMsg) (question : String)
    (fetched : FrontFetchQuery) : List ChatMsg :=
  prev ++ [⟨"user", question, none, false⟩, submitDetectiveMsg fetched]

/-- The detective-side message `handleTipClick` appends (lines 214-231):
as `submitDetectiveMsg` but with the tip handler's own failure text. -/
def tipDetectiveMsg (fetched : FrontFetchQuery) : ChatMsg :=
  match fetched with
  | .ok data => ⟨"detective", data.answer, some data.sources, false⟩
  | .exn => ⟨"detective", tipFailureText, none, true⟩
  | .err => ⟨"detective", tipFailureText, none, true⟩

/-- The `handleTipClick` transcript update (lines 202-237). -/
def handleTipClick (prev : List ChatMsg) (query : String)
    (fetched : FrontFetchQuery) : List ChatMsg :=
  prev ++ [⟨"user", query, none, false⟩, tipDetectiveMsg fetched]

/-! ## Theorems -/

/-- C1: an uploaded file whose extension (lower-cased) is neither `txt`
nor `pdf` is rejected with the unsupported-file-type banner, no upload
request is issued, and no Document record is created; a `txt` or `pdf`
file is forwarded for ingestion. -/
theorem upload_extension_gate (name : String) (fetched : FrontFetchUpload)
    (docs : List String) (accepted : Bool) :
    (¬(fileExt name = "txt" ∨ fileExt name = "pdf") →
      (handleFileUpload (some name) fetched).requestSent = false ∧
      (handleFileUpload (some name) fetched).uploadStatus =
        some ⟨.error, "Only .txt and .pdf files are supported"⟩ ∧
      documentsAfterUpload docs
        (handleFileUpload (some name) fetched).requestSent name accepted =
        docs) ∧
    ((fileExt name = "txt" ∨ fileExt name = "pdf") →
      (handleFileUpload (some name) fetched).requestSent = true) := by
  constructor
  · intro h
    simp [handleFileUpload, h, documentsAfterUpload]
  · intro h
    cases fetched <;> simp [handleFileUpload, h]

theorem upload_extension_gate_witness :
    ((handleFileUpload (some "malware.exe") .ok).requestSent = false ∧
      (handleFileUpload (some "malware.exe") .ok).uploadStatus =
        some ⟨.error, "Only .txt and .pdf files are supported"⟩ ∧
      documentsAfterUpload ["old.txt"]
        (handleFileUpload (some "malware.exe") .ok).requestSent
        "malware.exe" true = ["old.txt"]) ∧
    (handleFileUpload (some "Report.PDF") .ok).requestSent = true :=
  ⟨(upload_extension_gate "malware.exe" .ok ["old.txt"] true).1 (by decide),
   (upload_extension_gate "Report.PDF" .ok [] true).2 (by decide)⟩

/-- C2: when the query request fails (thrown or non-ok), the appended
detective message is the handler's fixed failure text, marked as an
error, with no sources and no content from the failed response; the
answer with its sources is displayed exactly on success. -/
theorem query_failure_banner (fetched : FrontFetchQuery) (d : QueryData)
    (prev : List ChatMsg) (q : String) :
    ((fetched = .exn ∨ fetched = .err) →
      submitDetectiveMsg fetched =
        ⟨"detective", submitFailureText, none, true⟩ ∧
      tipDetectiveMsg fetched =
        ⟨"detective", tipFailureText, none, true⟩) ∧
    (submitDetectiveMsg (.ok d) =
      ⟨"detective", d.answer, some d.sources, false⟩ ∧
     tipDetectiveMsg (.ok d) =
      ⟨"detective", d.answer, some d.sources, false⟩) ∧
    handleSubmit prev q fetched =
      prev ++ [⟨"user", q, none, false⟩, submitDetectiveMsg fetched] ∧
    handleTipClick prev q fetched =
      prev ++ [⟨"user", q, none, false⟩, tipDetectiveMsg fetched] := by
  refine ⟨?_, ⟨rfl, rfl⟩, rfl, rfl⟩
  rintro (rfl | rfl) <;> exact ⟨rfl, rfl⟩

theorem query_failure_banner_witness :
    submitDetectiveMsg .err = ⟨"detective", submitFailureText, none, true⟩ ∧
    tipDetectiveMsg .err = ⟨"detective", tipFailureText, none, true⟩ :=
  (query_failure_banner .err ⟨"", []⟩ [] "q").1 (Or.inr rfl)

/-- C3: when the forwarded query succeeds, the backend responds 200 with
the RAG body `{answer, sources}` passed through unchanged. -/
theorem query_success_passthrough (req : QueryRequest) (d : QueryData)
    (store : Store) (saveOk : Bool) (hq : truthy req.question) :
    (postQuery req (.ok d) store saveOk).1 = ⟨200, .queryData d⟩ := by
  simp [postQuery, hq]

theorem query_success_passthrough_witness :
    (postQuery ⟨some "who?", none⟩ (.ok ⟨"ans", []⟩) ⟨true, []⟩ true).1 =
      ⟨200, .queryData ⟨"ans", []⟩⟩ :=
  query_success_passthrough ⟨some "who?", none⟩ ⟨"ans", []⟩ ⟨true, []⟩ true
    (by decide)

/-- C4 counterexample: a persisted answered query stores the assistant
side with role `detective`, not `assistant` — the stored roles of the
session are `user` and `detective`, and `detective` is neither `user`
nor `assistant`. -/
theorem conversation_role_counterexample :
    ((postQuery ⟨some "Who was seen at the warehouse?", some "s1"⟩
        (.ok ⟨"Suspect A was seen there.", [⟨"suspect_a.txt", "warehouse"⟩]⟩)
        ⟨true, [⟨"s1", "New Investigation", []⟩]⟩ true).2.sessions.map
      (fun s => s.messages.map Message.role)) = [["user", "detective"]] ∧
    ¬("detective" = "user" ∨ "detective" = "assistant") := by
  constructor
  · rfl
  · decide

/-- C4 (amended): every stored conversation turn has role `user` or
`detective`, and each answered query that is persisted appends exactly
one user turn followed by one detective-side turn carrying the answer
and its cited sources. -/
theorem conversation_turns_amended (req : QueryRequest)
    (fetched : FetchQuery) (store : Store) (saveOk : Bool)
    (hroles : ∀ s ∈ store.sessions, ∀ m ∈ s.messages,
      m.role = "user" ∨ m.role = "detective") :
    (∀ s ∈ (postQuery req fetched store saveOk).2.sessions,
      ∀ m ∈ s.messages, m.role = "user" ∨ m.role = "detective") ∧
    (∀ s' ∈ (postQuery req fetched store saveOk).2.sessions,
      s' ∈ store.sessions ∨
      ∃ s ∈ store.sessions, ∃ d : QueryData, fetched = .ok d ∧
        s' = updateSession (req.question.getD "") d s) ∧
    (∀ q d s, (updateSession q d s).messages =
      s.messages ++ [⟨"user", q, []⟩, ⟨"detective", d.answer, d.sources⟩]) := by
  have hshape : ∀ s' ∈ (postQuery req fetched store saveOk).2.sessions,
      s' ∈ store.sessions ∨
      ∃ s ∈ store.sessions, ∃ d : QueryData, fetched = .ok d ∧
        s' = updateSession (req.question.getD "") d s := by
    intro s' hs'
    by_cases hq : truthy req.question
    · cases fetched with
      | exn msg => simp [postQuery, hq] at hs'; exact Or.inl hs'
      | err st body => simp [postQuery, hq] at hs'; exact Or.inl hs'
      | ok d =>
        simp only [postQuery, hq, if_pos] at hs'
        unfold saveToSession at hs'
        by_cases hc : truthy req.sessionId ∧ store.connected
        · simp only [hc, and_self, if_true] at hs'
          cases hfind : store.sessions.find?
              (fun s => s.id = req.sessionId.getD "") with
          | none => rw [hfind] at hs'; exact Or.inl hs'
          | some s0 =>
            rw [hfind] at hs'
            cases saveOk with
            | false => exact Or.inl hs'
            | true =>
              simp only [if_true] at hs'
              rcases List.mem_map.mp hs' with ⟨s, hs, hmap⟩
              by_cases hid : s.id = req.sessionId.getD ""
              · refine Or.inr ⟨s, hs, d, rfl, ?_⟩
                rw [← hmap]; simp [hid]
              · left; rw [← hmap]; simpa [hid] using hs
        · rw [if_neg hc] at hs'; exact Or.inl hs'
    · simp [postQuery, hq] at hs'; exact Or.inl hs'
  refine ⟨?_, hshape, fun q d s => rfl⟩
  intro s' hs' m hm
  rcases hshape s' hs' with hmem | ⟨s, hs, d, _, rfl⟩
  · exact hroles s' hmem m hm
  · unfold updateSession at hm
    simp only [List.mem_append, List.mem_cons, List.mem_singleton] at hm
    rcases hm with hm | hm | hm
    · exact hroles s hs m hm
    · subst hm; exact Or.inl rfl
    · rcases hm with hm | hm
      · subst hm; exact Or.inr rfl
      · cases hm

theorem conversation_turns_amended_witness :
    (⟨"detective", "a1", []⟩ : Message).role = "user" ∨
    (⟨"detective", "a1", []⟩ : Message).role = "detective" :=
  (conversation_turns_amended ⟨some "q1", some "s1"⟩ (.ok ⟨"a1", []⟩)
    ⟨true, [⟨"s1", "New Investigation", []⟩]⟩ true (by decide)).1
    ⟨"s1", "q1", [⟨"user", "q1", []⟩, ⟨"detective", "a1", []⟩]⟩ (by decide)
    ⟨"detective", "a1", []⟩ (by decide)

/-- C5: a non-ok downstream status is passed to the caller with the same
status code and the service's error body, for both query and upload; a
transport exception becomes status 500 with an error object. -/
theorem error_propagation (req : QueryRequest) (store : Store)
    (saveOk : Bool) (st : Nat) (body msg : String) (file : String)
    (hq : truthy req.question) :
    (postQuery req (.err st body) store saveOk).1 = ⟨st, .json body⟩ ∧
    (postQuery req (.exn msg) store saveOk).1 =
      ⟨500, .errorObj "Failed to query detective" (some msg)⟩ ∧
    postUpload (some file) (.err st body) = ⟨st, .json body⟩ ∧
    postUpload (some file) (.exn msg) =
      ⟨500, .errorObj "Failed to upload file" (some msg)⟩ := by
  refine ⟨?_, ?_, rfl, rfl⟩ <;> simp [postQuery, hq]

theorem error_propagation_witness :
    (postQuery ⟨some "who?", none⟩ (.err 503 "busy") ⟨true, []⟩ true).1 =
      ⟨503, .json "busy"⟩ ∧
    (postQuery ⟨some "who?", none⟩ (.exn "refused") ⟨true, []⟩ true).1 =
      ⟨500, .errorObj "Failed to query detective" (some "refused")⟩ ∧
    postUpload (some "f.txt") (.err 503 "busy") = ⟨503, .json "busy"⟩ ∧
    postUpload (some "f.txt") (.exn "refused") =
      ⟨500, .errorObj "Failed to upload file" (some "refused")⟩ :=
  error_propagation ⟨some "who?", none⟩ ⟨true, []⟩ true 503 "busy"
    "refused" "f.txt" (by decide)

/-- C6: answering a query with no `sessionId`, or with MongoDB
disconnected, leaves every stored session unchanged; the store can only
change when the caller supplied a `sessionId` that names an existing
session on a connected store. -/
theorem session_frame (req : QueryRequest) (fetched : FetchQuery)
    (store : Store) (saveOk : Bool) :
    ((req.sessionId = none ∨ store.connected = false) →
      (postQuery req fetched store saveOk).2 = store) ∧
    ((postQuery req fetched store saveOk).2 ≠ store →
      ∃ sid, req.sessionId = some sid ∧ store.connected = true ∧
        ∃ s ∈ store.sessions, s.id = sid) := by
  have hsave : ∀ d, (postQuery req (.ok d) store saveOk).2 =
      saveToSession req.sessionId (req.question.getD "") d store saveOk ∨
      (postQuery req (.ok d) store saveOk).2 = store := by
    intro d
    by_cases hq : truthy req.question
    · exact Or.inl (by simp [postQuery, hq])
    · exact Or.inr (by simp [postQuery, hq])
  constructor
  · intro h
    cases fetched with
    | exn msg => by_cases hq : truthy req.question <;> simp [postQuery, hq]
    | err st body =>
      by_cases hq : truthy req.question <;> simp [postQuery, hq]
    | ok d =>
      rcases hsave d with heq | heq
      · rw [heq]
        rcases h with h | h
        · simp [saveToSession, truthy, h]
        · simp [saveToSession, h]
      · exact heq
  · intro hne
    cases fetched with
    | exn msg =>
      exact absurd (by by_cases hq : truthy req.question <;>
        simp [postQuery, hq]) hne
    | err st body =>
      exact absurd (by by_cases hq : truthy req.question <;>
        simp [postQuery, hq]) hne
    | ok d =>
      rcases hsave d with heq | heq
      · rw [heq] at hne
        unfold saveToSession at hne
        by_cases hc : truthy req.sessionId ∧ store.connected
        · obtain ⟨hsid, hconn⟩ := hc
          cases hs : req.sessionId with
          | none => rw [hs] at hsid; simp [truthy] at hsid
          | some sid =>
            refine ⟨sid, rfl, hconn, ?_⟩
            rw [if_pos ⟨hsid, hconn⟩] at hne
            cases hfind : store.sessions.find?
                (fun s => decide (s.id = req.sessionId.getD "")) with
            | none => rw [hfind] at hne; exact absurd rfl hne
            | some s0 =>
              have hmem := List.mem_of_find?_eq_some hfind
              have hid : s0.id = req.sessionId.getD "" := by
                simpa using List.find?_some hfind
              rw [hs] at hid
              exact ⟨s0, hmem, hid⟩
        · rw [if_neg hc] at hne; exact absurd rfl hne
      · exact absurd heq hne

theorem session_frame_witness :
    (postQuery ⟨some "who?", none⟩ (.ok ⟨"ans", []⟩)
      ⟨true, [⟨"s1", "T", []⟩]⟩ true).2 = ⟨true, [⟨"s1", "T", []⟩]⟩ :=
  (session_frame ⟨some "who?", none⟩ (.ok ⟨"ans", []⟩)
    ⟨true, [⟨"s1", "T", []⟩]⟩ true).1 (Or.inl rfl)

/-- C7: the query handler issues exactly one downstream request per
query — the single `fetch` with no retry loop (zero retries, within the
allowed bound of two) — and a transport failure makes the query fail
with the 500 unavailable error. -/
theorem generation_call_bound (req : QueryRequest) (store : Store)
    (saveOk : Bool) (msg : String) (hq : truthy req.question) :
    postQueryDownstreamCalls req = 1 ∧
    (postQuery req (.exn msg) store saveOk).1 =
      ⟨500, .errorObj "Failed to query detective" (some msg)⟩ := by
  constructor
  · simp [postQueryDownstreamCalls, hq]
  · simp [postQuery, hq]

theorem generation_call_bound_witness :
    postQueryDownstreamCalls ⟨some "who?", none⟩ = 1 ∧
    (postQuery ⟨some "who?", none⟩ (.exn "timeout") ⟨true, []⟩ true).1 =
      ⟨500, .errorObj "Failed to query detective" (some "timeout")⟩ :=
  generation_call_bound ⟨some "who?", none⟩ ⟨true, []⟩ true "timeout"
    (by decide)

/-- C8: a query with a missing or empty question is answered 400 with an
error object, no downstream request is issued, and the store is left
unchanged. -/
theorem missing_question_rejected (req : QueryRequest)
    (fetched : FetchQuery) (store : Store) (saveOk : Bool)
    (hq : req.question = none ∨ req.question = some "") :
    (postQuery req fetched store saveOk).1 =
      ⟨400, .errorObj "Question is required" none⟩ ∧
    postQueryDownstreamCalls req = 0 ∧
    (postQuery req fetched store saveOk).2 = store := by
  have ht : truthy req.question = false := by
    rcases hq with h | h <;> simp [truthy, h]
  refine ⟨?_, ?_, ?_⟩ <;>
    simp [postQuery, postQueryDownstreamCalls, ht]

theorem missing_question_rejected_witness :
    (postQuery ⟨some "", some "s1"⟩ (.ok ⟨"ans", []⟩)
      ⟨true, [⟨"s1", "T", []⟩]⟩ true).1 =
      ⟨400, .errorObj "Question is required" none⟩ ∧
    postQueryDownstreamCalls ⟨some "", some "s1"⟩ = 0 ∧
    (postQuery ⟨some "", some "s1"⟩ (.ok ⟨"ans", []⟩)
      ⟨true, [⟨"s1", "T", []⟩]⟩ true).2 = ⟨true, [⟨"s1", "T", []⟩]⟩ :=
  missing_question_rejected ⟨some "", some "s1"⟩ (.ok ⟨"ans", []⟩)
    ⟨true, [⟨"s1", "T", []⟩]⟩ true (Or.inr rfl)

/-- C9: when the RAG service answered but committing the session update
throws, the inner catch swallows the error and the caller still receives
status 200 with the answer — a session-store failure never fails an
otherwise-successful query. -/
theorem session_save_failure_harmless (req : QueryRequest) (d : QueryData)
    (store : Store) (hq : truthy req.question) :
    (postQuery req (.ok d) store false).1 = ⟨200, .queryData d⟩ := by
  simp [postQuery, hq]

theorem session_save_failure_harmless_witness :
    (postQuery ⟨some "who?", some "s1"⟩ (.ok ⟨"ans", []⟩)
      ⟨true, [⟨"s1", "New Investigation", []⟩]⟩ false).1 =
      ⟨200, .queryData ⟨"ans", []⟩⟩ :=
  session_save_failure_harmless ⟨some "who?", some "s1"⟩ ⟨"ans", []⟩
    ⟨true, [⟨"s1", "New Investigation", []⟩]⟩ (by decide)

/-- C10: a session's title moves away from the default
`New Investigation` only when the first question-answer pair is saved
(exactly two messages after appending); it is then the question's first
50 characters with `...` appended exactly when the question exceeds 50
characters, hence at most 53 characters; a session with a non-default
title keeps it unchanged. -/
theorem session_title_update (s : Session) (q : String) (d : QueryData) :
    (s.title ≠ "New Investigation" →
      (updateSession q d s).title = s.title) ∧
    ((updateSession q d s).title ≠ s.title →
      s.title = "New Investigation" ∧
      (updateSession q d s).messages.length = 2) ∧
    (s.title = "New Investigation" → s.messages = [] →
      (updateSession q d s).title =
        jsSubstringTo q 50 ++ (if q.length > 50 then "..." else "") ∧
      (updateSession q d s).title.length ≤ 53 ∧
      (q.length ≤ 50 → (updateSession q d s).title = q)) := by
  refine ⟨?_, ?_, ?_⟩
  · intro h
    simp [updateSession, h]
  · intro hne
    by_cases hcond : s.title = "New Investigation" ∧
        (s.messages ++ [(⟨"user", q, []⟩ : Message),
          ⟨"detective", d.answer, d.sources⟩]).length = 2
    · refine ⟨hcond.1, ?_⟩
      show (s.messages ++ [(⟨"user", q, []⟩ : Message),
        ⟨"detective", d.answer, d.sources⟩]).length = 2
      exact hcond.2
    · exfalso
      apply hne
      show (if s.title = "New Investigation" ∧
          (s.messages ++ [(⟨"user", q, []⟩ : Message),
            ⟨"detective", d.answer, d.sources⟩]).length = 2 then
          jsSubstringTo q 50 ++ (if q.length > 50 then "..." else "")
        else s.title) = s.title
      rw [if_neg hcond]
  · intro h1 h2
    have hcond : s.title = "New Investigation" ∧
        (s.messages ++ [(⟨"user", q, []⟩ : Message),
          ⟨"detective", d.answer, d.sources⟩]).length = 2 := by
      simp [h1, h2]
    have htitle : (updateSession q d s).title =
        jsSubstringTo q 50 ++ (if q.length > 50 then "..." else "") := by
      show (if s.title = "New Investigation" ∧
          (s.messages ++ [(⟨"user", q, []⟩ : Message),
            ⟨"detective", d.answer, d.sources⟩]).length = 2 then
          jsSubstringTo q 50 ++ (if q.length > 50 then "..." else "")
        else s.title) =
        jsSubstringTo q 50 ++ (if q.length > 50 then "..." else "")
      rw [if_pos hcond]
    have htake : (jsSubstringTo q 50).length ≤ 50 := by
      show (q.data.take 50).length ≤ 50
      exact q.data.length_take_le 50
    refine ⟨htitle, ?_, ?_⟩
    · rw [htitle]
      by_cases hlong : q.length > 50
      · rw [if_pos hlong, String.length_append]
        have : ("..." : String).length = 3 := rfl
        omega
      · rw [if_neg hlong, String.length_append]
        have : ("" : String).length = 0 := rfl
        omega
    · intro hshort
      rw [htitle, if_neg (by omega)]
      have hq : jsSubstringTo q 50 = q := by
        show String.mk (q.data.take 50) = q
        rw [List.take_of_length_le hshort]
      rw [hq]
      exact String.append_empty q

theorem session_title_update_witness :
    (updateSession
      "Where exactly was Suspect A seen on the night of the crime?"
      ⟨"ans", []⟩ ⟨"s1", "New Investigation", []⟩).title.length ≤ 53 :=
  ((session_title_update ⟨"s1", "New Investigation", []⟩
    "Where exactly was Suspect A seen on the night of the crime?"
    ⟨"ans", []⟩).2.2 rfl rfl).2.1

end ColdCase
